import Mathlib

/-!
Verification of `src/m2ee/pgutil.py` (m2ee-tools PostgreSQL helper module).

The module shells out to external PostgreSQL client binaries and, for the
wipe operation, uses the psycopg2 client library.  We embed each operation
as a pure Lean function parameterised by the behaviour of the external
world (the subprocess outcome, the result of opening the output file, the
database contents and the point at which a database error occurs, if any).

Byte streams produced by subprocesses are modelled as `List Char`; the
Python helpers used by the source (`bytes.split`, `bytes.splitlines`,
`bytes.strip`, `int()`, `os.path.join`, `time.strftime`, dict
comprehension) are modelled explicitly below.
-/

namespace M2EE

/-- Model of Python `bytes.split(sep)` with a one-byte separator:
splitting the empty string yields `[[]]`, and every occurrence of the
separator starts a new (possibly empty) chunk. -/
def pySplit (sep : Char) : List Char → List (List Char)
  | [] => [[]]
  | c :: rest =>
      match pySplit sep rest with
      | [] => [[c]]
      | h :: t => if c = sep then [] :: h :: t else (c :: h) :: t

/-- Model of Python `bytes.splitlines()` for `\n`-separated output (the
only line terminator psql emits here): split on `\n` and drop the final
empty chunk produced by a trailing newline, so `b"".splitlines() = []`
and `b"a\nb\n".splitlines() = [b"a", b"b"]`. -/
def pySplitlines (s : List Char) : List (List Char) :=
  if (pySplit '\n' s).getLast? = some [] then (pySplit '\n' s).dropLast
  else pySplit '\n' s

/-- Model of Python `bytes.strip()`: remove leading and trailing ASCII
whitespace. -/
def pyStrip (s : List Char) : List Char :=
  ((s.dropWhile Char.isWhitespace).reverse.dropWhile Char.isWhitespace).reverse

/-- Value of a list of decimal digit characters. -/
def digitsToNat (ds : List Char) : Nat :=
  ds.foldl (fun a c => 10 * a + (c.toNat - 48)) 0

/-- Model of Python `int(bytes)`: strip surrounding whitespace, accept an
optional sign followed by a non-empty run of decimal digits; anything
else raises `ValueError` (modelled as `none`). -/
def pyInt (s : List Char) : Option Int :=
  match pyStrip s with
  | [] => none
  | c :: ds =>
      if c = '-' then
        if ds ≠ [] ∧ ds.all Char.isDigit then some (-(digitsToNat ds : Int)) else none
      else if c = '+' then
        if ds ≠ [] ∧ ds.all Char.isDigit then some ((digitsToNat ds : Int)) else none
      else if (c :: ds).all Char.isDigit then some ((digitsToNat (c :: ds) : Int)) else none

/-- Model of a Python `dict` as an insertion-ordered association list:
inserting an existing key overwrites its value in place, a new key is
appended at the end. -/
def dictInsert (d : List (String × Int)) (k : String) (v : Int) : List (String × Int) :=
  if k ∈ d.map Prod.fst then
    d.map (fun p => if p.1 = k then (k, v) else p)
  else d ++ [(k, v)]

/-- Model of Python `os.path.join` for two components on POSIX. -/
def posixJoin (a b : String) : String :=
  if b.startsWith "/" then b
  else if a = "" then b
  else if a.endsWith "/" then a ++ b
  else a ++ "/" ++ b

/-- Broken-down local time as delivered by `time.localtime()`; all fields
are in their usual ranges (year up to 9999, two-digit remaining fields),
which is what the zero-padded rendering below relies on. -/
structure Tm where
  year : Nat
  month : Nat
  mday : Nat
  hour : Nat
  minute : Nat
  second : Nat
deriving Repr, DecidableEq

/-- Two-digit zero-padded decimal rendering (`%m`, `%d`, `%H`, `%M`, `%S`). -/
def pad2 (n : Nat) : List Char :=
  [Nat.digitChar (n / 10 % 10), Nat.digitChar (n % 10)]

/-- Four-digit zero-padded decimal rendering (`%Y` for years 0–9999). -/
def pad4 (n : Nat) : List Char :=
  [Nat.digitChar (n / 1000 % 10), Nat.digitChar (n / 100 % 10),
   Nat.digitChar (n / 10 % 10), Nat.digitChar (n % 10)]

/-- Model of `time.strftime("%Y%m%d_%H%M%S")` applied to a broken-down
time value. -/
def strftimeTimestamp (t : Tm) : String :=
  (pad4 t.year ++ pad2 t.month ++ pad2 t.mday ++ ['_']
    ++ pad2 t.hour ++ pad2 t.minute ++ pad2 t.second).asString

/-- Checks the `YYYYMMDD_HHMMSS` shape: 8 digits, an underscore, 6 digits. -/
def isTimestampFormat (s : String) : Bool :=
  s.data.length = 15 &&
  (s.data.take 8).all Char.isDigit &&
  s.data[8]? = some '_' &&
  (s.data.drop 9).all Char.isDigit

/-- Connection environment variables supplied by
`config.get_pg_environment()`. -/
structure PgEnv where
  PGDATABASE : String
  PGUSER : String
  PGPASSWORD : String
deriving Repr, DecidableEq

/-- The configuration values `pgutil.py` reads from its `config`
collaborator. -/
structure Config where
  pg_env : PgEnv
  database_dump_path : String
  pg_dump_binary : String
  pg_restore_binary : String
  psql_binary : String
deriving Repr, DecidableEq

/-- The Python exception kinds the module's operations can produce:
`M2EEException` (raised explicitly by the module), `ValueError` (from
`int()`), `subprocess.CalledProcessError` (from `check_output` on a
non-zero exit status) and an uncaught `OSError`. -/
inductive PyError where
  | m2eeException (msg : String)
  | valueError
  | calledProcessError (returncode : Int)
  | osError (msg : String)
deriving Repr, DecidableEq

/-- Outcome of one external command invocation: either the OS failed to
spawn the process (`OSError` from `Popen`/`call`/`check_output`), or the
process ran to completion with the given captured streams and exit
status. -/
inductive ProcResult where
  | launchFailure (msg : String)
  | finished (stdout stderr : List Char) (returncode : Int)
deriving Repr, DecidableEq

/-- Outcome of `open(path, 'w+')`: success (the file is created or
truncated) or an `OSError`. -/
inductive OpenResult where
  | ok
  | osError (msg : String)
deriving Repr, DecidableEq

/-- The parse `[int(x) for x in output.split(b'|')]` shared verbatim by
`pg_stat_database` (line 170) and `pg_table_index_size` (line 213):
convert every pipe-separated field with `int()`, raising `ValueError` on
the first field that is not an integer literal. -/
def parseIntFields : List (List Char) → Except PyError (List Int)
  | [] => .ok []
  | x :: rest =>
      match pyInt x with
      | some n =>
          match parseIntFields rest with
          | .ok xs => .ok (n :: xs)
          | .error e => .error e
      | none => .error PyError.valueError

deriving instance DecidableEq for Except

/-- Result of one call to `dumpdb` (source lines 45–68): the computed
dump file path, whether `open(path, 'w+')` ran (creating or truncating
the file) and the Python-level result. -/
structure DumpOutcome where
  path : String
  fileTruncated : Bool
  result : Except PyError Unit
deriving Repr, DecidableEq

/-- The dump file path computed at source lines 49–54: a default name
`<PGDATABASE>_<strftime "%Y%m%d_%H%M%S">.backup` when no name is given,
joined under `config.get_database_dump_path()`. -/
def dump_file_name (config : Config) (name : Option String) (ts : String) : String :=
  posixJoin config.database_dump_path
    (match name with
     | none => config.pg_env.PGDATABASE ++ "_" ++ ts ++ ".backup"
     | some n => n)

/-- `dumpdb` (source lines 45–68).  `ts` is the value of
`time.strftime("%Y%m%d_%H%M%S")`; `openRes` is the outcome of
`open(db_dump_file_name, 'w+')`, which is evaluated as an argument of
`subprocess.Popen` and therefore runs before the child process starts;
`proc` is the outcome of the `pg_dump` invocation.  An `OSError` from
either is caught and wrapped; a non-empty error stream raises
`M2EEException` carrying the stripped stderr text, regardless of the
exit status, which is never consulted. -/
def dumpdb (config : Config) (name : Option String) (ts : String)
    (openRes : OpenResult) (proc : ProcResult) : DumpOutcome :=
  let path := dump_file_name config name ts
  match openRes with
  | .osError _ =>
      { path := path, fileTruncated := false,
        result := .error (.m2eeException
          ("Database dump failed, cmd: " ++ config.pg_dump_binary)) }
  | .ok =>
      match proc with
      | .launchFailure _ =>
          { path := path, fileTruncated := true,
            result := .error (.m2eeException
              ("Database dump failed, cmd: " ++ config.pg_dump_binary)) }
      | .finished _ stderr _ =>
          if stderr.length ≠ 0 then
            { path := path, fileTruncated := true,
              result := .error (.m2eeException
                ("An error occured while creating database dump: "
                  ++ (pyStrip stderr).asString)) }
          else
            { path := path, fileTruncated := true, result := .ok () }

/-- `restoredb` (source lines 71–91): invoke `pg_restore`; a non-empty
error stream raises `M2EEException` with the stripped stderr text (the
source format string has a trailing space), an `OSError` from `Popen` is
wrapped; the exit status is never consulted. -/
def restoredb (config : Config) (dump_name : String) (proc : ProcResult) :
    Except PyError Unit :=
  match proc with
  | .launchFailure _ =>
      .error (.m2eeException
        ("Database restore failed, cmd: " ++ config.pg_restore_binary))
  | .finished _ stderr _ =>
      if stderr.length ≠ 0 then
        .error (.m2eeException
          ("An error occured while doing database restore: "
            ++ (pyStrip stderr).asString ++ " "))
      else .ok ()

/-- `psql` (source lines 140–148): `subprocess.call` attaches the
client to the caller's terminal and its exit status is discarded; only
an `OSError` while spawning is caught and wrapped in `M2EEException`. -/
def psql (config : Config) (proc : ProcResult) : Except PyError Unit :=
  match proc with
  | .launchFailure _ =>
      .error (.m2eeException
        ("An error occured while calling psql, cmd: " ++ config.psql_binary))
  | .finished _ _ _ => .ok ()

/-- `pg_stat_database` (source lines 151–170): run the five-column
statistics query through `psql -At`; a non-empty error stream raises
`M2EEException` with the stripped stderr text, a launch failure is
wrapped, and otherwise stdout is split on `|` and each field converted
with `int()` — the number of fields is not checked. -/
def pg_stat_database (config : Config) (proc : ProcResult) :
    Except PyError (List Int) :=
  match proc with
  | .launchFailure _ =>
      .error (.m2eeException
        ("Retrieving pg_stat_database info failed, cmd: " ++ config.psql_binary))
  | .finished stdout stderr _ =>
      if stderr.length ≠ 0 then
        .error (.m2eeException
          ("Retrieving pg_stat_database info failed: " ++ (pyStrip stderr).asString))
      else parseIntFields (pySplit '|' stdout)

/-- One step of the dict comprehension at source lines 194–198:
`line.split(b'|')` must unpack into exactly `count, state` (otherwise
`ValueError`), `int(count)` must parse (otherwise `ValueError`), and the
pair is inserted into the dict. -/
def activityStep (d : List (String × Int)) (line : List Char) :
    Except PyError (List (String × Int)) :=
  match pySplit '|' line with
  | [count, state] =>
      match pyInt count with
      | some n => .ok (dictInsert d state.asString n)
      | none => .error .valueError
  | _ => .error .valueError

/-- `pg_stat_activity` (source lines 173–198): run the per-state
connection-count query through `psql -At`; non-empty stderr raises
`M2EEException`, a launch failure is wrapped, and otherwise each output
line `count|state` is folded into a dict. -/
def pg_stat_activity (config : Config) (proc : ProcResult) :
    Except PyError (List (String × Int)) :=
  match proc with
  | .launchFailure _ =>
      .error (.m2eeException
        ("Retrieving pg_stat_activity info failed, cmd: " ++ config.psql_binary))
  | .finished stdout stderr _ =>
      if stderr.length ≠ 0 then
        .error (.m2eeException
          ("Retrieving pg_stat_activity info failed: " ++ (pyStrip stderr).asString))
      else (pySplitlines stdout).foldlM activityStep []

/-- `pg_table_index_size` (source lines 201–213): uses
`subprocess.check_output`, which captures only stdout, never looks at
the error stream, and raises `CalledProcessError` when the exit status
is non-zero; an `OSError` while spawning propagates uncaught.  On
success stdout is split on `|` and converted with `int()`. -/
def pg_table_index_size (config : Config) (proc : ProcResult) :
    Except PyError (List Int) :=
  match proc with
  | .launchFailure msg => .error (.osError msg)
  | .finished stdout _ returncode =>
      if returncode ≠ 0 then .error (.calledProcessError returncode)
      else parseIntFields (pySplit '|' stdout)

/-- Visible non-system tables and sequences of the connected database,
as returned by the two catalog queries in `emptydb` (source lines
99–106 and 117–124): `(nspname, relname)` pairs. -/
structure DbState where
  tables : List (String × String)
  sequences : List (String × String)
deriving Repr, DecidableEq

/-- The statements `emptydb` executes on its cursor/connection, in
order (source lines 97–133). -/
inductive WipeStep where
  | selectTables
  | dropTable (nsp rel : String)
  | selectSequences
  | dropSequence (nsp rel : String)
  | commitStep
deriving Repr, DecidableEq

/-- The statements before `conn.commit()`: the table catalog query, one
`DROP TABLE … CASCADE` per fetched table, the sequence catalog query,
one `DROP SEQUENCE … CASCADE` per fetched sequence. -/
def wipeFront (d : DbState) : List WipeStep :=
  [WipeStep.selectTables]
    ++ d.tables.map (fun p => WipeStep.dropTable p.1 p.2)
    ++ [WipeStep.selectSequences]
    ++ d.sequences.map (fun p => WipeStep.dropSequence p.1 p.2)

/-- The full statement sequence of one `emptydb` call, ending with
`conn.commit()`. -/
def wipeSteps (d : DbState) : List WipeStep :=
  wipeFront d ++ [WipeStep.commitStep]

/-- Transaction semantics of one statement on the session state
`(committed, pending)`: psycopg2 runs every statement of the session in
one implicit transaction, so drops only change the pending state and
only `conn.commit()` publishes the pending state. -/
def applyWipeStep (st : DbState × DbState) (s : WipeStep) : DbState × DbState :=
  match s with
  | .selectTables => st
  | .selectSequences => st
  | .dropTable nsp rel =>
      (st.1, { st.2 with tables := st.2.tables.filter (fun q => q ≠ (nsp, rel)) })
  | .dropSequence nsp rel =>
      (st.1, { st.2 with sequences := st.2.sequences.filter (fun q => q ≠ (nsp, rel)) })
  | .commitStep => (st.2, st.2)

/-- Run the statement sequence; `errAt = some k` means the k-th
statement (0-based) raises `psycopg2.Error`, in which case the session
stops there with `false` and the pending (uncommitted) changes are
rolled back when the connection closes. -/
def runWipeSession (st : DbState × DbState) (steps : List WipeStep) (idx : Nat)
    (errAt : Option Nat) : (DbState × DbState) × Bool :=
  match steps with
  | [] => (st, true)
  | s :: rest =>
      if errAt = some idx then (st, false)
      else runWipeSession (applyWipeStep st s) rest (idx + 1) errAt

/-- Result of one call to `emptydb`: the committed database state after
the call, whether a connection was opened and whether it was closed, and
the Python-level result. -/
structure WipeOutcome where
  committed : DbState
  connOpened : Bool
  connClosed : Bool
  result : Except PyError Unit
deriving Repr, DecidableEq

/-- `emptydb` (source lines 94–137).  `connectErr = some e` means
`psycopg2.connect` failed inside `open_pg_connection` (source lines
27–42), which raises `M2EEException` before any connection exists.
Otherwise the statement sequence runs inside the connection's single
implicit transaction; if statement `errAt` raises `psycopg2.Error` the
exception is wrapped in `M2EEException` and the `finally:` block closes
the connection, rolling back the uncommitted transaction. -/
def emptydb (config : Config) (connectErr : Option String) (pgerr : String)
    (initial : DbState) (errAt : Option Nat) : WipeOutcome :=
  match connectErr with
  | some e =>
      { committed := initial, connOpened := false, connClosed := false,
        result := .error (.m2eeException
          ("Opening database connection failed: " ++ e)) }
  | none =>
      let r := runWipeSession (initial, initial) (wipeSteps initial) 0 errAt
      if r.2 then
        { committed := r.1.1, connOpened := true, connClosed := true,
          result := .ok () }
      else
        { committed := r.1.1, connOpened := true, connClosed := true,
          result := .error (.m2eeException ("Emptying database failed: " ++ pgerr)) }

/-- Concatenation of newline-terminated output lines, as `psql -At`
emits them on stdout. -/
def joinLines (ls : List (List Char)) : List Char :=
  (ls.map (fun l => l ++ ['\n'])).flatten

/-- The `psql -At` output of the `pg_stat_activity` query: one
`count|state` line per connection state group. -/
def activityOutput (pairs : List (List Char × List Char)) : List Char :=
  joinLines (pairs.map (fun p => p.1 ++ '|' :: p.2))

/-- The mapping `pg_stat_activity` builds from well-formed grouped
output: one entry per line, keyed by the state name, in output order. -/
def activityDict (pairs : List (List Char × List Char)) : List (String × Int) :=
  pairs.map (fun p => (p.2.asString, (digitsToNat p.1 : Int)))

/-- Lookup in the association-list model of a Python `dict`. -/
def dictFind (d : List (String × Int)) (k : String) : Option Int :=
  match d with
  | [] => none
  | (k', v) :: t => if k = k' then some v else dictFind t k

/-- A sample configuration used to instantiate the theorems below on
concrete inputs. -/
def cfg0 : Config :=
  ⟨⟨"appdb", "appuser", "secret"⟩, "/srv/dumps", "pg_dump", "pg_restore", "psql"⟩

/-! ### Helper lemmas about the modelled Python primitives -/

theorem digit_char_props {c : Char} (h : c.isDigit = true) :
    c.isWhitespace = false ∧ c ≠ '|' ∧ c ≠ '\n' ∧ c ≠ '-' ∧ c ≠ '+' := by
  refine ⟨?_, ?_, ?_, ?_, ?_⟩
  · by_contra hw
    rw [Bool.not_eq_false] at hw
    have hw' := hw
    simp only [Char.isWhitespace, Bool.or_eq_true, decide_eq_true_eq] at hw'
    rcases hw' with ((h1 | h1) | h1) | h1 <;> subst h1 <;> exact absurd h (by decide)
  · intro h1; subst h1; exact absurd h (by decide)
  · intro h1; subst h1; exact absurd h (by decide)
  · intro h1; subst h1; exact absurd h (by decide)
  · intro h1; subst h1; exact absurd h (by decide)

theorem not_mem_of_all_digits {l : List Char} (h : l.all Char.isDigit = true) :
    '|' ∉ l ∧ '\n' ∉ l := by
  rw [List.all_eq_true] at h
  constructor <;> intro hm <;> exact absurd (h _ hm) (by decide)

theorem dropWhile_ws_of_digits {l : List Char} (h : l.all Char.isDigit = true) :
    l.dropWhile Char.isWhitespace = l := by
  cases l with
  | nil => rfl
  | cons c t =>
      simp only [List.all_cons, Bool.and_eq_true] at h
      simp [List.dropWhile_cons, (digit_char_props h.1).1]

theorem pyStrip_digits {l : List Char} (h : l.all Char.isDigit = true) :
    pyStrip l = l := by
  unfold pyStrip
  rw [dropWhile_ws_of_digits h,
      dropWhile_ws_of_digits (List.all_reverse.trans h), List.reverse_reverse]

theorem pyInt_digits {l : List Char} (h0 : l ≠ []) (h : l.all Char.isDigit = true) :
    pyInt l = some (digitsToNat l : Int) := by
  unfold pyInt
  rw [pyStrip_digits h]
  cases l with
  | nil => exact absurd rfl h0
  | cons c t =>
      have hall := h
      simp only [List.all_cons, Bool.and_eq_true] at h
      have hc := digit_char_props h.1
      simp [hc.2.2.2.1, hc.2.2.2.2, hall]

theorem pySplit_cons (sep c : Char) (t : List Char) :
    pySplit sep (c :: t) =
      match pySplit sep t with
      | [] => [[c]]
      | h :: r => if c = sep then [] :: h :: r else (c :: h) :: r := rfl

theorem pySplit_ne_nil (sep : Char) (l : List Char) : pySplit sep l ≠ [] := by
  cases l with
  | nil => simp [pySplit]
  | cons c t =>
      unfold pySplit
      cases pySplit sep t with
      | nil => simp
      | cons a r => by_cases hc : c = sep <;> simp [hc]

theorem pySplit_of_not_mem {sep : Char} {l : List Char} (h : sep ∉ l) :
    pySplit sep l = [l] := by
  induction l with
  | nil => rfl
  | cons c t ih =>
      have hc : c ≠ sep := fun he => h (he ▸ List.mem_cons_self c t)
      have ht : sep ∉ t := fun hm => h (List.mem_cons_of_mem _ hm)
      unfold pySplit
      rw [ih ht]
      simp [hc]

theorem pySplit_append_sep {sep : Char} {a : List Char} (r : List Char)
    (h : sep ∉ a) : pySplit sep (a ++ sep :: r) = a :: pySplit sep r := by
  induction a with
  | nil =>
      show pySplit sep (sep :: r) = [] :: pySplit sep r
      rw [pySplit_cons]
      cases hq : pySplit sep r with
      | nil => exact absurd hq (pySplit_ne_nil sep r)
      | cons x xs => simp
  | cons c t ih =>
      have hc : c ≠ sep := fun he => h (he ▸ List.mem_cons_self c t)
      have ht : sep ∉ t := fun hm => h (List.mem_cons_of_mem _ hm)
      show pySplit sep (c :: (t ++ sep :: r)) = (c :: t) :: pySplit sep r
      rw [pySplit_cons, ih ht]
      simp [hc]

theorem pySplit_joinLines (ls : List (List Char)) (h : ∀ l ∈ ls, '\n' ∉ l) :
    pySplit '\n' (joinLines ls) = ls ++ [[]] := by
  induction ls with
  | nil => rfl
  | cons a t ih =>
      have : joinLines (a :: t) = a ++ '\n' :: joinLines t := by
        simp [joinLines]
      rw [this, pySplit_append_sep _ (h a (List.mem_cons_self a t)),
          ih fun l hl => h l (List.mem_cons_of_mem _ hl)]
      rfl

theorem pySplitlines_joinLines (ls : List (List Char)) (h : ∀ l ∈ ls, '\n' ∉ l) :
    pySplitlines (joinLines ls) = ls := by
  unfold pySplitlines
  rw [pySplit_joinLines ls h, List.getLast?_concat]
  simp [List.dropLast_concat]

theorem activityStep_ok (d : List (String × Int)) (p : List Char × List Char)
    (h1 : p.1 ≠ []) (h2 : p.1.all Char.isDigit = true) (h3 : '|' ∉ p.2) :
    activityStep d (p.1 ++ '|' :: p.2)
      = .ok (dictInsert d p.2.asString (digitsToNat p.1)) := by
  unfold activityStep
  rw [pySplit_append_sep _ (not_mem_of_all_digits h2).1, pySplit_of_not_mem h3]
  simp [pyInt_digits h1 h2]

theorem foldlM_activity (pairs : List (List Char × List Char)) :
    ∀ d0 : List (String × Int),
      (∀ p ∈ pairs, p.1 ≠ [] ∧ p.1.all Char.isDigit = true) →
      (∀ p ∈ pairs, '|' ∉ p.2) →
      List.foldlM activityStep d0 (pairs.map (fun p => p.1 ++ '|' :: p.2))
        = .ok (pairs.foldl
            (fun d p => dictInsert d p.2.asString (digitsToNat p.1)) d0) := by
  induction pairs with
  | nil => intro d0 _ _; rfl
  | cons p t ih =>
      intro d0 h1 h2
      have hp1 := h1 p (List.mem_cons_self p t)
      have hp2 := h2 p (List.mem_cons_self p t)
      rw [List.map_cons, List.foldlM_cons, activityStep_ok d0 p hp1.1 hp1.2 hp2]
      show List.foldlM activityStep (dictInsert d0 p.2.asString (digitsToNat p.1))
          (t.map (fun p => p.1 ++ '|' :: p.2)) = _
      rw [ih _ (fun q hq => h1 q (List.mem_cons_of_mem _ hq))
            (fun q hq => h2 q (List.mem_cons_of_mem _ hq))]
      rfl

theorem dictInsert_fresh (d : List (String × Int)) (k : String) (v : Int)
    (h : k ∉ d.map Prod.fst) : dictInsert d k v = d ++ [(k, v)] := by
  unfold dictInsert
  rw [if_neg h]

theorem activityDict_keys (pairs : List (List Char × List Char)) :
    (activityDict pairs).map Prod.fst = pairs.map (fun p => p.2.asString) := by
  simp [activityDict, List.map_map]

theorem foldl_dictInsert (pairs : List (List Char × List Char)) :
    ∀ d0 : List (String × Int),
      (pairs.map (fun p => p.2.asString)).Nodup →
      (∀ k ∈ pairs.map (fun p => p.2.asString), k ∉ d0.map Prod.fst) →
      pairs.foldl (fun d p => dictInsert d p.2.asString (digitsToNat p.1)) d0
        = d0 ++ activityDict pairs := by
  induction pairs with
  | nil => intro d0 _ _; simp [activityDict]
  | cons p t ih =>
      intro d0 hnd hdisj
      have hmem : p.2.asString ∈ (p :: t).map (fun q => q.2.asString) := by simp
      rw [List.foldl_cons, dictInsert_fresh _ _ _ (hdisj _ hmem)]
      rw [List.map_cons, List.nodup_cons] at hnd
      have hfresh : ∀ k ∈ t.map (fun q => q.2.asString),
          k ∉ (d0 ++ [(p.2.asString, (digitsToNat p.1 : Int))]).map Prod.fst := by
        intro k hk
        rw [List.map_append, List.mem_append]
        rintro (hk0 | hk1)
        · exact hdisj k (List.mem_cons_of_mem _ hk) hk0
        · simp only [List.map_cons, List.map_nil, List.mem_singleton] at hk1
          subst hk1
          exact hnd.1 hk
      rw [ih _ hnd.2 hfresh]
      simp [activityDict]

theorem dictFind_activityDict {pairs : List (List Char × List Char)}
    (hnd : (pairs.map (fun p => p.2.asString)).Nodup)
    {p : List Char × List Char} (hp : p ∈ pairs) :
    dictFind (activityDict pairs) p.2.asString = some ((digitsToNat p.1 : Int)) := by
  induction pairs with
  | nil => cases hp
  | cons q t ih =>
      rw [List.map_cons, List.nodup_cons] at hnd
      rcases List.mem_cons.mp hp with he | ht
      · subst he
        simp [activityDict, dictFind]
      · have hne : p.2.asString ≠ q.2.asString := by
          intro he
          exact hnd.1 (he ▸ List.mem_map_of_mem (fun r => r.2.asString) ht)
        simp only [activityDict, List.map_cons, dictFind, if_neg hne]
        exact ih hnd.2 ht

theorem dictFind_activityDict_none {pairs : List (List Char × List Char)} {s : String}
    (h : s ∉ pairs.map (fun p => p.2.asString)) :
    dictFind (activityDict pairs) s = none := by
  induction pairs with
  | nil => rfl
  | cons q t ih =>
      simp only [List.map_cons, List.mem_cons, not_or] at h
      simp only [activityDict, List.map_cons, dictFind, if_neg h.1]
      exact ih h.2

theorem runWipeSession_cons (st : DbState × DbState) (s : WipeStep)
    (rest : List WipeStep) (idx : Nat) (errAt : Option Nat) :
    runWipeSession st (s :: rest) idx errAt =
      if errAt = some idx then (st, false)
      else runWipeSession (applyWipeStep st s) rest (idx + 1) errAt := rfl

theorem applyWipeStep_fst (st : DbState × DbState) {s : WipeStep}
    (h : s ≠ WipeStep.commitStep) : (applyWipeStep st s).1 = st.1 := by
  cases s <;> simp_all [applyWipeStep]

theorem runWipeSession_none (steps : List WipeStep) :
    ∀ st idx, runWipeSession st steps idx none = (steps.foldl applyWipeStep st, true) := by
  induction steps with
  | nil => intro st idx; rfl
  | cons s rest ih =>
      intro st idx
      rw [runWipeSession_cons, if_neg (by simp), ih, List.foldl_cons]

theorem runWipeSession_some (steps : List WipeStep) :
    ∀ st idx k, idx ≤ k → k < idx + steps.length →
      (∀ s ∈ steps.take (k - idx), s ≠ WipeStep.commitStep) →
      (runWipeSession st steps idx (some k)).1.1 = st.1
        ∧ (runWipeSession st steps idx (some k)).2 = false := by
  induction steps with
  | nil =>
      intro st idx k h1 h2 _
      simp only [List.length_nil, Nat.add_zero] at h2
      omega
  | cons s rest ih =>
      intro st idx k h1 h2 htake
      rw [runWipeSession_cons]
      by_cases he : k = idx
      · subst he; simp
      · have hlt : idx < k := lt_of_le_of_ne h1 fun h => he h.symm
        rw [if_neg (by simpa using fun h => he h)]
        have hs : s ≠ WipeStep.commitStep := by
          apply htake
          have hku : k - idx = (k - (idx + 1)) + 1 := by omega
          rw [hku, List.take_succ_cons]
          exact List.mem_cons_self _ _
        have hrest : ∀ s' ∈ rest.take (k - (idx + 1)), s' ≠ WipeStep.commitStep := by
          intro s' hs'
          apply htake
          have hku : k - idx = (k - (idx + 1)) + 1 := by omega
          rw [hku, List.take_succ_cons]
          exact List.mem_cons_of_mem _ hs'
        have h2' : k < (idx + 1) + rest.length := by
          simp only [List.length_cons] at h2
          omega
        have := ih (applyWipeStep st s) (idx + 1) k hlt h2' hrest
        exact ⟨by rw [this.1, applyWipeStep_fst st hs], this.2⟩

theorem commit_not_mem_wipeFront (d : DbState) :
    WipeStep.commitStep ∉ wipeFront d := by
  simp [wipeFront]

theorem take_wipeSteps_no_commit (d : DbState) (k : Nat)
    (hk : k < (wipeSteps d).length) :
    ∀ s ∈ (wipeSteps d).take k, s ≠ WipeStep.commitStep := by
  intro s hs
  have hk' : k ≤ (wipeFront d).length := by
    simp only [wipeSteps, List.length_append, List.length_cons, List.length_nil] at hk
    omega
  rw [wipeSteps, List.take_append_of_le_length hk'] at hs
  intro he
  subst he
  exact commit_not_mem_wipeFront d (List.take_subset _ _ hs)

theorem filter_not_mem_self (L : List (String × String)) :
    L.filter (fun x => x ∉ L) = [] :=
  List.filter_eq_nil_iff.mpr fun a ha => by simp [ha]

theorem foldl_dropTables (L : List (String × String)) :
    ∀ (c p : DbState),
      (L.map (fun q => WipeStep.dropTable q.1 q.2)).foldl applyWipeStep (c, p)
        = (c, { p with tables := p.tables.filter (fun x => x ∉ L) }) := by
  induction L with
  | nil => intro c p; simp
  | cons a t ih =>
      intro c p
      rw [List.map_cons, List.foldl_cons]
      show (t.map _).foldl applyWipeStep
          (c, { p with tables := p.tables.filter (fun q => q ≠ (a.1, a.2)) }) = _
      rw [ih]
      refine congrArg _ ?_
      congr 1
      rw [List.filter_filter]
      refine List.filter_congr fun x _ => ?_
      by_cases h1 : x = (a.1, a.2)
      · simp [h1]
      · by_cases h2 : x ∈ t <;> simp [h1, h2]

theorem foldl_dropSequences (L : List (String × String)) :
    ∀ (c p : DbState),
      (L.map (fun q => WipeStep.dropSequence q.1 q.2)).foldl applyWipeStep (c, p)
        = (c, { p with sequences := p.sequences.filter (fun x => x ∉ L) }) := by
  induction L with
  | nil => intro c p; simp
  | cons a t ih =>
      intro c p
      rw [List.map_cons, List.foldl_cons]
      show (t.map _).foldl applyWipeStep
          (c, { p with sequences := p.sequences.filter (fun q => q ≠ (a.1, a.2)) }) = _
      rw [ih]
      refine congrArg _ ?_
      congr 1
      rw [List.filter_filter]
      refine List.filter_congr fun x _ => ?_
      by_cases h1 : x = (a.1, a.2)
      · simp [h1]
      · by_cases h2 : x ∈ t <;> simp [h1, h2]

theorem wipeSteps_success (initial : DbState) :
    (wipeSteps initial).foldl applyWipeStep (initial, initial)
      = (⟨[], []⟩, ⟨[], []⟩) := by
  rw [wipeSteps, wipeFront, List.foldl_append]
  rw [List.foldl_append, List.foldl_append, List.foldl_append]
  have h1 : List.foldl applyWipeStep (initial, initial) [WipeStep.selectTables]
      = (initial, initial) := rfl
  rw [h1, foldl_dropTables]
  have h2 : ∀ st : DbState × DbState,
      List.foldl applyWipeStep st [WipeStep.selectSequences] = st := fun _ => rfl
  rw [h2, foldl_dropSequences, filter_not_mem_self, filter_not_mem_self]
  rfl

theorem parseIntFields_length {fields : List (List Char)} {xs : List Int}
    (h : parseIntFields fields = .ok xs) : xs.length = fields.length := by
  induction fields generalizing xs with
  | nil =>
      unfold parseIntFields at h
      cases h
      rfl
  | cons x rest ih =>
      unfold parseIntFields at h
      cases hq : pyInt x with
      | none => rw [hq] at h; cases h
      | some n =>
          rw [hq] at h
          cases hr : parseIntFields rest with
          | error e => rw [hr] at h; cases h
          | ok ys =>
              rw [hr] at h
              cases h
              simpa using ih hr

theorem parseIntFields_cons_digits {x : List Char} {rest : List (List Char)}
    (h0 : x ≠ []) (h : x.all Char.isDigit = true) :
    parseIntFields (x :: rest) =
      match parseIntFields rest with
      | .ok xs => .ok ((digitsToNat x : Int) :: xs)
      | .error e => .error e := by
  have heq : parseIntFields (x :: rest) =
      match pyInt x with
      | some n =>
          match parseIntFields rest with
          | .ok xs => .ok (n :: xs)
          | .error e => .error e
      | none => .error PyError.valueError := rfl
  rw [heq, pyInt_digits h0 h]

theorem digitChar_mod_isDigit (n : Nat) : (Nat.digitChar (n % 10)).isDigit = true := by
  have hd : ∀ m : Nat, m < 10 → (Nat.digitChar m).isDigit = true := by decide
  exact hd _ (Nat.mod_lt _ (by norm_num))

theorem isTimestampFormat_strftime (t : Tm) :
    isTimestampFormat (strftimeTimestamp t) = true := by
  unfold isTimestampFormat strftimeTimestamp pad4 pad2
  simp [List.asString, digitChar_mod_isDigit]

/-! ### Claim theorems -/

/-- C7: when `dump` is called without an explicit name, the output file
path equals the configured dump directory joined with
`<database>_<timestamp>.backup`, where the timestamp has the
`YYYYMMDD_HHMMSS` pattern; when a name is provided, the path is the dump
directory joined with that name. -/
theorem C7_dump_path (config : Config) (t : Tm) (n : String)
    (openRes : OpenResult) (proc : ProcResult) :
    ((dumpdb config none (strftimeTimestamp t) openRes proc).path
        = posixJoin config.database_dump_path
            (config.pg_env.PGDATABASE ++ "_" ++ strftimeTimestamp t ++ ".backup")
      ∧ isTimestampFormat (strftimeTimestamp t) = true)
    ∧ (dumpdb config (some n) (strftimeTimestamp t) openRes proc).path
        = posixJoin config.database_dump_path n := by
  refine ⟨⟨?_, isTimestampFormat_strftime t⟩, ?_⟩ <;>
    cases openRes <;> cases proc <;> simp [dumpdb, dump_file_name, apply_ite]

/-- C9: `dump` opens the target output file with mode `w+` (creating or
truncating it) before the external dump binary is invoked, so whenever
the `open` call itself succeeds the file at the computed path has been
created/truncated on every outcome of the call — including a launch
failure and a failure reported on the error stream. -/
theorem C9_dump_truncates (config : Config) (name : Option String) (ts : String)
    (proc : ProcResult) :
    (dumpdb config name ts OpenResult.ok proc).fileTruncated = true := by
  cases proc <;> simp [dumpdb, apply_ite]

/-- C10: `openInteractiveShell` (`psql`) returns normally for every exit
status of the interactive client, and raises (an `M2EEException`
wrapping the `OSError`) only when the client binary cannot be spawned. -/
theorem C10_psql_ignores_exit_status (config : Config) (stdout stderr : List Char)
    (code : Int) (e : String) :
    psql config (.finished stdout stderr code) = .ok ()
      ∧ psql config (.launchFailure e)
          = .error (.m2eeException
              ("An error occured while calling psql, cmd: " ++ config.psql_binary)) :=
  ⟨rfl, rfl⟩

/-- C8: every database connection opened by `wipe` (`emptydb`) is closed
on every exit path, both on normal return and on failure. -/
theorem C8_wipe_closes_connection (config : Config) (connectErr : Option String)
    (pgerr : String) (initial : DbState) (errAt : Option Nat)
    (h : (emptydb config connectErr pgerr initial errAt).connOpened = true) :
    (emptydb config connectErr pgerr initial errAt).connClosed = true := by
  cases connectErr with
  | some e => simp [emptydb] at h
  | none => simp [emptydb, apply_ite]

/-- Witness for C8 at a concrete configuration, database state and
failure point. -/
theorem C8_wipe_closes_connection_witness :
    (emptydb cfg0 none "err" ⟨[("public", "t")], []⟩ (some 1)).connOpened = true
      ∧ (emptydb cfg0 none "err" ⟨[("public", "t")], []⟩ (some 1)).connClosed = true :=
  ⟨by decide, C8_wipe_closes_connection cfg0 none "err" ⟨[("public", "t")], []⟩
    (some 1) (by decide)⟩

/-- C4 is false on the code: on a schema with zero tables the two `sum`
columns are null and `psql -At` prints the row as `|`, whose empty first
field makes `int(b'')` raise `ValueError` — `getStorageSize` raises
instead of returning `[0, 0]`. -/
theorem C4_counterexample :
    pg_table_index_size cfg0 (.finished ['|', '\n'] [] 0)
      = .error PyError.valueError := by decide

/-- C4 (amended): when the storage-size query returns null totals (the
zero-tables schema), the `psql -At` output line `|` fails integer
parsing and `getStorageSize` raises a `ValueError` (not a
`StatsQueryError`), rather than returning `[0, 0]`. -/
theorem C4_null_sums_raise_valueerror (config : Config) :
    pg_table_index_size config (.finished ['|', '\n'] [] 0)
      = .error PyError.valueError := rfl

/-- C2: `wipe` runs both drop phases inside one transaction and commits
only after both phases (and the commit statement itself) succeed: if the
k-th statement of the session raises a database error, the committed
state is unchanged and the call fails with `M2EEException` wrapping the
database error; if no statement fails, the committed state has no
tables and no sequences left. -/
theorem C2_wipe_single_transaction (config : Config) (pgerr : String)
    (initial : DbState) (k : Nat) (hk : k < (wipeSteps initial).length) :
    ((emptydb config none pgerr initial (some k)).committed = initial
      ∧ (emptydb config none pgerr initial (some k)).result
          = .error (.m2eeException ("Emptying database failed: " ++ pgerr)))
    ∧ ((emptydb config none pgerr initial none).committed = ⟨[], []⟩
      ∧ (emptydb config none pgerr initial none).result = .ok ()) := by
  constructor
  · have h := runWipeSession_some (wipeSteps initial) (initial, initial) 0 k
      (Nat.zero_le k) (by simpa using hk)
      (by simpa using take_wipeSteps_no_commit initial k hk)
    constructor <;> simp [emptydb, h.1, h.2]
  · have h := runWipeSession_none (wipeSteps initial) (initial, initial) 0
    rw [wipeSteps_success] at h
    constructor <;> simp [emptydb, h]

/-- Witness for C2 at a concrete configuration and database state, with
the failure injected at the first `DROP TABLE` statement. -/
theorem C2_wipe_single_transaction_witness :
    (1 < (wipeSteps ⟨[("public", "t1")], [("public", "s1")]⟩).length)
    ∧ (((emptydb cfg0 none "boom" ⟨[("public", "t1")], [("public", "s1")]⟩
            (some 1)).committed = ⟨[("public", "t1")], [("public", "s1")]⟩
        ∧ (emptydb cfg0 none "boom" ⟨[("public", "t1")], [("public", "s1")]⟩
            (some 1)).result
            = .error (.m2eeException ("Emptying database failed: " ++ "boom")))
      ∧ ((emptydb cfg0 none "boom" ⟨[("public", "t1")], [("public", "s1")]⟩
            none).committed = ⟨[], []⟩
        ∧ (emptydb cfg0 none "boom" ⟨[("public", "t1")], [("public", "s1")]⟩
            none).result = .ok ())) :=
  ⟨by decide, C2_wipe_single_transaction cfg0 "boom"
    ⟨[("public", "t1")], [("public", "s1")]⟩ 1 (by decide)⟩

/-- C1 is false on the code as stated: the storage-size operation
(`pg_table_index_size`) is built on `subprocess.check_output`, which
never inspects the error stream, so with a non-empty error stream and
exit status 0 it succeeds instead of failing; moreover the message kept
by the operations that do fail is the *stripped* error-stream text, not
the verbatim text. -/
theorem C1_counterexample :
    pg_table_index_size cfg0 (.finished ['1', '|', '2'] ['o', 'o', 'p', 's'] 0)
        = .ok [1, 2]
    ∧ (dumpdb cfg0 none "20260101_000000" OpenResult.ok
          (.finished [] [' ', 'b', 'o', 'o', 'm', ' ', '\n'] 0)).result
        = .error (.m2eeException
            "An error occured while creating database dump: boom")
    ∧ "An error occured while creating database dump: boom"
        ≠ "An error occured while creating database dump: "
            ++ ([' ', 'b', 'o', 'o', 'm', ' ', '\n'] : List Char).asString := by
  refine ⟨by decide, by decide, by decide⟩

/-- C1 (amended): for the four Popen-backed operations (dump, restore,
activity counters, connection state counts) a non-empty error stream
makes the operation fail with `M2EEException` carrying the error-stream
text stripped of surrounding whitespace, regardless of the exit status;
the storage-size operation, by contrast, never inspects the error
stream and on exit status 0 simply parses stdout. -/
theorem C1_error_stream_amended (config : Config) (name : Option String)
    (ts dn : String) (stdout stderr : List Char) (code : Int) (h : stderr ≠ []) :
    (dumpdb config name ts OpenResult.ok (.finished stdout stderr code)).result
        = .error (.m2eeException ("An error occured while creating database dump: "
            ++ (pyStrip stderr).asString))
    ∧ restoredb config dn (.finished stdout stderr code)
        = .error (.m2eeException ("An error occured while doing database restore: "
            ++ (pyStrip stderr).asString ++ " "))
    ∧ pg_stat_database config (.finished stdout stderr code)
        = .error (.m2eeException ("Retrieving pg_stat_database info failed: "
            ++ (pyStrip stderr).asString))
    ∧ pg_stat_activity config (.finished stdout stderr code)
        = .error (.m2eeException ("Retrieving pg_stat_activity info failed: "
            ++ (pyStrip stderr).asString))
    ∧ pg_table_index_size config (.finished stdout stderr 0)
        = parseIntFields (pySplit '|' stdout) := by
  have hlen : stderr.length ≠ 0 := fun h0 => h (List.length_eq_zero.mp h0)
  refine ⟨?_, ?_, ?_, ?_, ?_⟩ <;>
    simp [dumpdb, restoredb, pg_stat_database, pg_stat_activity,
      pg_table_index_size, hlen]

/-- Witness for the amended C1 at a concrete configuration and a
concrete non-empty error stream. -/
theorem C1_error_stream_amended_witness :
    ((['e', 'r', 'r'] : List Char) ≠ [])
    ∧ ((dumpdb cfg0 none "20260101_000000" OpenResult.ok
          (.finished ['4', '2'] ['e', 'r', 'r'] 3)).result
        = .error (.m2eeException ("An error occured while creating database dump: "
            ++ (pyStrip ['e', 'r', 'r']).asString))
      ∧ restoredb cfg0 "x.backup" (.finished ['4', '2'] ['e', 'r', 'r'] 3)
          = .error (.m2eeException ("An error occured while doing database restore: "
              ++ (pyStrip ['e', 'r', 'r']).asString ++ " "))
      ∧ pg_stat_database cfg0 (.finished ['4', '2'] ['e', 'r', 'r'] 3)
          = .error (.m2eeException ("Retrieving pg_stat_database info failed: "
              ++ (pyStrip ['e', 'r', 'r']).asString))
      ∧ pg_stat_activity cfg0 (.finished ['4', '2'] ['e', 'r', 'r'] 3)
          = .error (.m2eeException ("Retrieving pg_stat_activity info failed: "
              ++ (pyStrip ['e', 'r', 'r']).asString))
      ∧ pg_table_index_size cfg0 (.finished ['4', '2'] ['e', 'r', 'r'] 0)
          = parseIntFields (pySplit '|' ['4', '2'])) :=
  ⟨by decide, C1_error_stream_amended cfg0 none "20260101_000000" "x.backup"
    ['4', '2'] ['e', 'r', 'r'] 3 (by decide)⟩

/-- C3 is false on the code as stated: the parse
`[int(x) for x in stdout.split(b'|')]` never checks the field count, so
a three-field output yields three integers without any error, and a
non-integer field raises `ValueError`, not a `StatsQueryError`
(`M2EEException`). -/
theorem C3_counterexample :
    pg_stat_database cfg0 (.finished ['1', '|', '2', '|', '3'] [] 0) = .ok [1, 2, 3]
    ∧ pg_stat_database cfg0 (.finished ['x'] [] 0) = .error PyError.valueError := by
  refine ⟨by decide, by decide⟩

/-- C3 (amended): `getDatabaseActivityCounters` fails with
`M2EEException` on a non-empty error stream; otherwise it returns the
integers parsed from the pipe-split output in field order — exactly five
in order `[commits, rollbacks, inserted, updated, deleted]` when the
output is a genuine five-field integer row — but it does not validate
the field count (N parseable fields yield N integers), and a
non-integer field raises `ValueError` rather than `M2EEException`. -/
theorem C3_activity_counters_amended (config : Config) (stdout stderr : List Char)
    (code : Int) :
    (stderr ≠ [] →
      pg_stat_database config (.finished stdout stderr code)
        = .error (.m2eeException ("Retrieving pg_stat_database info failed: "
            ++ (pyStrip stderr).asString)))
    ∧ (∀ xs : List Int, parseIntFields (pySplit '|' stdout) = .ok xs →
        pg_stat_database config (.finished stdout [] code) = .ok xs
          ∧ xs.length = (pySplit '|' stdout).length)
    ∧ (∀ a b c d e : List Char,
        a ≠ [] ∧ a.all Char.isDigit = true →
        b ≠ [] ∧ b.all Char.isDigit = true →
        c ≠ [] ∧ c.all Char.isDigit = true →
        d ≠ [] ∧ d.all Char.isDigit = true →
        e ≠ [] ∧ e.all Char.isDigit = true →
        pg_stat_database config
          (.finished (a ++ '|' :: (b ++ '|' :: (c ++ '|' :: (d ++ '|' :: e)))) [] code)
          = .ok [(digitsToNat a : Int), (digitsToNat b : Int), (digitsToNat c : Int),
              (digitsToNat d : Int), (digitsToNat e : Int)]) := by
  refine ⟨?_, ?_, ?_⟩
  · intro h
    have hlen : stderr.length ≠ 0 := fun h0 => h (List.length_eq_zero.mp h0)
    simp [pg_stat_database, hlen]
  · intro xs hxs
    refine ⟨by simp [pg_stat_database, hxs], parseIntFields_length hxs⟩
  · intro a b c d e ha hb hc hd he
    have hsplit : pySplit '|' (a ++ '|' :: (b ++ '|' :: (c ++ '|' :: (d ++ '|' :: e))))
        = [a, b, c, d, e] := by
      rw [pySplit_append_sep _ (not_mem_of_all_digits ha.2).1,
          pySplit_append_sep _ (not_mem_of_all_digits hb.2).1,
          pySplit_append_sep _ (not_mem_of_all_digits hc.2).1,
          pySplit_append_sep _ (not_mem_of_all_digits hd.2).1,
          pySplit_of_not_mem (not_mem_of_all_digits he.2).1]
    have hparse : parseIntFields [a, b, c, d, e]
        = .ok [(digitsToNat a : Int), (digitsToNat b : Int), (digitsToNat c : Int),
            (digitsToNat d : Int), (digitsToNat e : Int)] := by
      rw [parseIntFields_cons_digits ha.1 ha.2, parseIntFields_cons_digits hb.1 hb.2,
          parseIntFields_cons_digits hc.1 hc.2, parseIntFields_cons_digits hd.1 hd.2,
          parseIntFields_cons_digits he.1 he.2]
      rfl
    simp [pg_stat_database, hsplit, hparse]

/-- Witness for the amended C3 at concrete outputs: an error stream, a
three-field output and a five-field output. -/
theorem C3_activity_counters_amended_witness :
    ((['e'] : List Char) ≠ [])
    ∧ parseIntFields (pySplit '|' ['1', '|', '2', '|', '3']) = .ok [1, 2, 3]
    ∧ (pg_stat_database cfg0 (.finished ['1', '|', '2', '|', '3'] ['e'] 7)
        = .error (.m2eeException ("Retrieving pg_stat_database info failed: "
            ++ (pyStrip ['e']).asString)))
    ∧ pg_stat_database cfg0 (.finished ['1', '|', '2', '|', '3'] [] 7) = .ok [1, 2, 3]
    ∧ ([1, 2, 3] : List Int).length = (pySplit '|' ['1', '|', '2', '|', '3']).length
    ∧ pg_stat_database cfg0
        (.finished (['4', '2'] ++ '|' :: (['7'] ++ '|' :: (['0'] ++ '|' :: (['1']
            ++ '|' :: ['9'])))) [] 7)
        = .ok [(digitsToNat ['4', '2'] : Int), (digitsToNat ['7'] : Int),
            (digitsToNat ['0'] : Int), (digitsToNat ['1'] : Int),
            (digitsToNat ['9'] : Int)] := by
  have h := C3_activity_counters_amended cfg0 ['1', '|', '2', '|', '3'] ['e'] 7
  have h2 := h.2.1 [1, 2, 3] (by decide)
  refine ⟨by decide, by decide, h.1 (by decide), h2.1, h2.2, ?_⟩
  exact h.2.2 ['4', '2'] ['7'] ['0'] ['1'] ['9']
    (by decide) (by decide) (by decide) (by decide) (by decide)

/-- C5 is false on the code as stated: on a non-zero exit status
`subprocess.check_output` raises `CalledProcessError`, and a
non-integer field raises `ValueError` — neither is a `StatsQueryError`
(`M2EEException`). -/
theorem C5_counterexample :
    pg_table_index_size cfg0 (.finished [] [] 1) = .error (.calledProcessError 1)
    ∧ pg_table_index_size cfg0 (.finished ['x', '|', '2'] [] 0)
        = .error PyError.valueError := by
  refine ⟨by decide, by decide⟩

/-- C5 (amended): when the storage-size command exits abnormally the
operation raises `subprocess.CalledProcessError` (uncaught); when it
cannot be spawned the `OSError` propagates; on exit status 0 the output
is parsed by `int()` over the pipe-split fields, so unparsable fields
raise `ValueError` and any number of integer fields (not just two) is
returned — no failure is ever an `M2EEException`/`StatsQueryError`. -/
theorem C5_storage_size_error_kinds_amended (config : Config)
    (stdout stderr : List Char) (code : Int) (e : String) (h : code ≠ 0) :
    pg_table_index_size config (.finished stdout stderr code)
        = .error (.calledProcessError code)
    ∧ pg_table_index_size config (.finished stdout stderr 0)
        = parseIntFields (pySplit '|' stdout)
    ∧ pg_table_index_size config (.launchFailure e) = .error (.osError e)
    ∧ ∀ msg : String,
        (Except.error (PyError.calledProcessError code) : Except PyError (List Int))
          ≠ .error (.m2eeException msg) := by
  refine ⟨by simp [pg_table_index_size, h], by simp [pg_table_index_size], rfl, ?_⟩
  intro msg hcontra
  simp at hcontra

/-- Witness for the amended C5 at exit status 1 and a concrete
configuration. -/
theorem C5_storage_size_error_kinds_amended_witness :
    ((1 : Int) ≠ 0)
    ∧ (pg_table_index_size cfg0 (.finished ['9'] ['w'] 1)
        = .error (.calledProcessError 1)
      ∧ pg_table_index_size cfg0 (.finished ['9'] ['w'] 0)
          = parseIntFields (pySplit '|' ['9'])
      ∧ pg_table_index_size cfg0 (.launchFailure "psql missing")
          = .error (.osError "psql missing")
      ∧ ∀ msg : String,
          (Except.error (PyError.calledProcessError 1) : Except PyError (List Int))
            ≠ .error (.m2eeException msg)) :=
  ⟨by decide,
    C5_storage_size_error_kinds_amended cfg0 ['9'] ['w'] 1 "psql missing" (by decide)⟩

/-- C6: for every query output whose lines each have the form
`<count>|<state>` (digit counts, distinct state names free of `|` and
newline, as the `GROUP BY` query produces), `getConnectionStateCounts`
returns the mapping whose keys are exactly the state names appearing in
the output, each mapped to its parsed integer count, and a state absent
from the output is absent from the mapping. -/
theorem C6_connection_state_counts (config : Config)
    (pairs : List (List Char × List Char)) (code : Int)
    (h1 : ∀ p ∈ pairs, p.1 ≠ [] ∧ p.1.all Char.isDigit = true)
    (h2 : ∀ p ∈ pairs, '|' ∉ p.2 ∧ '\n' ∉ p.2)
    (h3 : (pairs.map (fun p => p.2.asString)).Nodup) :
    pg_stat_activity config (.finished (activityOutput pairs) [] code)
        = .ok (activityDict pairs)
    ∧ (activityDict pairs).map Prod.fst = pairs.map (fun p => p.2.asString)
    ∧ (∀ p ∈ pairs, dictFind (activityDict pairs) p.2.asString
          = some ((digitsToNat p.1 : Int)))
    ∧ (∀ s : String, s ∉ pairs.map (fun p => p.2.asString) →
          dictFind (activityDict pairs) s = none) := by
  refine ⟨?_, activityDict_keys pairs, fun p hp => dictFind_activityDict h3 hp,
    fun s hs => dictFind_activityDict_none hs⟩
  have hlines : ∀ l ∈ pairs.map (fun p => p.1 ++ '|' :: p.2), '\n' ∉ l := by
    intro l hl
    rcases List.mem_map.mp hl with ⟨p, hp, rfl⟩
    intro hmem
    rcases List.mem_append.mp hmem with hma | hmb
    · exact (not_mem_of_all_digits (h1 p hp).2).2 hma
    · rcases List.mem_cons.mp hmb with hpipe | hst
      · cases hpipe
      · exact (h2 p hp).2 hst
  have hout : pySplitlines (activityOutput pairs)
      = pairs.map (fun p => p.1 ++ '|' :: p.2) :=
    pySplitlines_joinLines _ hlines
  simp only [pg_stat_activity, List.length_nil, ne_eq, not_true_eq_false,
    if_false, hout]
  rw [foldlM_activity pairs [] (fun p hp => h1 p hp) (fun p hp => (h2 p hp).1),
    foldl_dictInsert pairs [] h3 (by simp)]
  simp

/-- Witness for C6 on the two-line output `1|idle\n2|active\n`. -/
theorem C6_connection_state_counts_witness :
    pg_stat_activity cfg0
        (.finished (activityOutput
          [(['1'], ['i', 'd', 'l', 'e']), (['2'], ['a', 'c', 't', 'i', 'v', 'e'])])
          [] 0)
      = .ok (activityDict
          [(['1'], ['i', 'd', 'l', 'e']), (['2'], ['a', 'c', 't', 'i', 'v', 'e'])])
    ∧ dictFind (activityDict
          [(['1'], ['i', 'd', 'l', 'e']), (['2'], ['a', 'c', 't', 'i', 'v', 'e'])])
        (['i', 'd', 'l', 'e'] : List Char).asString
        = some ((digitsToNat ['1'] : Int))
    ∧ dictFind (activityDict
          [(['1'], ['i', 'd', 'l', 'e']), (['2'], ['a', 'c', 't', 'i', 'v', 'e'])])
        "idle in transaction" = none := by
  have h := C6_connection_state_counts cfg0
    [(['1'], ['i', 'd', 'l', 'e']), (['2'], ['a', 'c', 't', 'i', 'v', 'e'])] 0
    (by decide) (by decide) (by decide)
  exact ⟨h.1, h.2.2.1 (['1'], ['i', 'd', 'l', 'e']) (by simp),
    h.2.2.2 "idle in transaction" (by decide)⟩

end M2EE
